import Mathlib

/-!
# Verification of the adbutils client front-end

This development is a shallow embedding of `adbutils/__init__.py`:
the device-listing parser (`AdbClient.list`), the `state == "device"`
filter (`iter_device` / `device_list`), the device resolver
(`AdbClient.device`), the deprecated per-serial shell shim
(`AdbClient.shell`) and the blocking-to-async bridge
(`AsyncAdbController`).

Python-specific behaviour is made explicit:

* `str.split()` (no argument) splits on runs of whitespace and drops
  empty fields: `pySplit`.
* `str.splitlines()` splits on `\n`, `\r\n` and `\r` and produces no
  trailing empty line: `splitlines`.
* `str.split(":")` is `pySplitOn ':'` (split at every occurrence,
  empty fields kept).
* optional arguments are tested by *truthiness* (`if serial:`), so
  `None`, `""` and `0` all fall through: `pyTruthyStr`, `pyTruthyInt`.
* a Python `dict` built by a comprehension keeps the first position of
  a key and the last value bound to it: `dictInsert` / `dictGet` over
  an association list.
* exceptions are modelled by `Except PyError`.

Collaborators that live in other modules of the package
(`adbutils._adb`, `adbutils._device`) are modelled from the spec where
the claims need them; each such definition carries a
`Modelled from the spec:` doc comment.
-/

namespace Adb

/-- Errors the embedded code can raise. `adbError` carries the message of a
Python `AdbError`; `indexError` models the `IndexError` raised by an
out-of-range subscript such as `kv[1]` on a one-element list;
`framingError` models a malformed-frame failure from the wire layer. -/
inductive PyError where
  | adbError (msg : String)
  | indexError
  | framingError (msg : String)
deriving Repr, DecidableEq

/-- Python whitespace characters relevant to `str.split()` with no
argument: space, tab, newline, carriage return, vertical tab, form feed. -/
def isPySpace (c : Char) : Bool :=
  c = ' ' || c = '\t' || c = '\n' || c = '\r' || c = '\x0b' || c = '\x0c'

/-- Split a character list at every character satisfying `p`, keeping
empty fields (the accumulator holds the current field reversed). This is
the common core of Python's `str.split(sep)` and `str.split()`. -/
def splitCharsBy (p : Char → Bool) : List Char → List Char → List (List Char)
  | [], acc => [acc.reverse]
  | c :: rest, acc =>
    if p c then acc.reverse :: splitCharsBy p rest []
    else splitCharsBy p rest (c :: acc)

/-- Python `str.split(sep)` for a one-character separator: split at every
occurrence, keeping empty fields (`"a:b:c" ↦ ["a","b","c"]`,
`"nosep" ↦ ["nosep"]`, `"" ↦ [""]`). -/
def pySplitOn (sep : Char) (s : String) : List String :=
  (splitCharsBy (fun c => c = sep) s.data []).map (fun cs => String.mk cs)

/-- Python `str.split()` with no argument: split on runs of whitespace,
dropping empty fields. -/
def pySplit (s : String) : List String :=
  ((splitCharsBy isPySpace s.data []).map (fun cs => String.mk cs)).filter
    (fun t => t ≠ "")

/-- Helper for `splitlines`, working on the character list. The
accumulator holds the current line reversed. Python's `splitlines`
recognises `\n`, `\r\n` and `\r` as terminators and yields no trailing
empty line. -/
def splitlinesAux : List Char → List Char → List (List Char)
  | [], acc => if acc.isEmpty then [] else [acc.reverse]
  | '\n' :: rest, acc => acc.reverse :: splitlinesAux rest []
  | '\r' :: '\n' :: rest, acc => acc.reverse :: splitlinesAux rest []
  | '\r' :: rest, acc => acc.reverse :: splitlinesAux rest []
  | c :: rest, acc => splitlinesAux rest (c :: acc)

/-- Python `str.splitlines()`. -/
def splitlines (s : String) : List String :=
  (splitlinesAux s.data []).map (fun cs => String.mk cs)

/-- Insertion into a Python `dict` modelled as an association list:
an existing key keeps its position and receives the new value, a fresh
key is appended at the end. -/
def dictInsert (d : List (String × String)) (k v : String) :
    List (String × String) :=
  if d.any (fun p => p.1 = k) then
    d.map (fun p => if p.1 = k then (k, v) else p)
  else
    d ++ [(k, v)]

/-- Lookup in the association-list model of a Python `dict`. -/
def dictGet (d : List (String × String)) (k : String) : Option String :=
  (d.find? (fun p => p.1 = k)).map Prod.snd

/-- One parsed line of a device listing: `AdbDeviceInfo(serial, state, tags)`
from `adbutils._proto`, a plain record. -/
structure AdbDeviceInfo where
  serial : String
  state : String
  tags : List (String × String)
deriving Repr, DecidableEq

/-- Modelled from the spec: `AdbDevice` (from `adbutils._device`, not under
`src/`) "identifies one device by exactly one of serial, transport_id"
(§3 DeviceHandle); the constructor stores the chosen selector. -/
structure AdbDevice where
  serial : Option String
  transport_id : Option Int
deriving Repr, DecidableEq

/-- The tag dictionary of one extended listing line:
`{kv[0]: kv[1] for kv in map(lambda pair: pair.split(":"), parts[2:])}`.
Each token is split on `":"`; a token whose split has fewer than two
fields makes `kv[1]` raise `IndexError`. -/
def buildTagDict : List String → List (String × String) →
    Except PyError (List (String × String))
  | [], d => .ok d
  | t :: rest, d =>
    match pySplitOn ':' t with
    | [] => .error .indexError
    | [_] => .error .indexError
    | k :: v :: _ => buildTagDict rest (dictInsert d k v)

/-- The per-line body of the parsing loop in `AdbClient.list`: split the
line on whitespace, skip it when fewer than the two required fields
(serial and state) are present, otherwise build the record, with tags
only in extended mode. `none` means the line was skipped. -/
def parseLine (extended : Bool) (line : String) :
    Except PyError (Option AdbDeviceInfo) :=
  match pySplit line with
  | s :: st :: rest =>
    if extended then
      match buildTagDict rest [] with
      | .ok tags => .ok (some { serial := s, state := st, tags := tags })
      | .error e => .error e
    else .ok (some { serial := s, state := st, tags := [] })
  | _ => .ok none

/-- The parsing loop of `AdbClient.list` over the lines of the response
block: skipped lines contribute nothing, an exception aborts the whole
call. -/
def parseOutput (extended : Bool) : List String →
    Except PyError (List AdbDeviceInfo)
  | [] => .ok []
  | line :: rest =>
    match parseLine extended line with
    | .error e => .error e
    | .ok none => parseOutput extended rest
    | .ok (some info) =>
      match parseOutput extended rest with
      | .error e => .error e
      | .ok infos => .ok (info :: infos)

/-- Modelled from the spec: the scoped connection returned by
`make_connection` (in `adbutils._adb`, not under `src/`). The only
observable state the claims need is whether the socket has been
released. -/
structure AdbConnection where
  closed : Bool
deriving Repr, DecidableEq

/-- Modelled from the spec: the daemon's possible behaviour on one
`host:devices` / `host:devices-l` exchange — a successful block read,
a `FAIL` status with a reason (raised by `check_okay`), or a framing
error while reading (§4.1, §7). -/
inductive WireResp where
  | okay (block : String)
  | failStatus (reason : String)
  | framing (msg : String)
deriving Repr, DecidableEq

/-- Modelled from the spec: releasing the scoped connection closes the
socket (§4.2 "whose release always closes the socket"). -/
def connClose (c : AdbConnection) : AdbConnection := { c with closed := true }

/-- Modelled from the spec: the `with self.make_connection() as c:` block —
a fresh connection is acquired, the body runs on it and may return a
value or an exception, and release (close) happens on either exit path
(§4.2 scoped acquisition, §7). -/
def withConnection {α : Type}
    (body : AdbConnection → Except PyError α × AdbConnection) :
    Except PyError α × AdbConnection :=
  let r := body { closed := false }
  (r.1, connClose r.2)

/-- The body of `AdbClient.list` run against one daemon behaviour:
`send_command`, `check_okay` (raises on `FAIL`), `read_string_block`
(may fail with a framing error), then the parsing loop. -/
def listSession (extended : Bool) (resp : WireResp) (c : AdbConnection) :
    Except PyError (List AdbDeviceInfo) × AdbConnection :=
  match resp with
  | .failStatus reason => (.error (.adbError reason), c)
  | .framing msg => (.error (.framingError msg), c)
  | .okay block => (parseOutput extended (splitlines block), c)

/-- `AdbClient.list(extended)`: the discovery command inside a scoped
connection, returning the parsed infos (or the raised error) together
with the final connection state. -/
def AdbClient.list (extended : Bool) (resp : WireResp) :
    Except PyError (List AdbDeviceInfo) × AdbConnection :=
  withConnection (listSession extended resp)

/-- The loop body of `AdbClient.iter_device`: keep exactly the entries
whose state is `"device"`, yielding `AdbDevice(self, serial=info.serial)`
for each. -/
def iterDeviceLoop : List AdbDeviceInfo → List AdbDevice
  | [] => []
  | info :: rest =>
    if info.state ≠ "device" then iterDeviceLoop rest
    else { serial := some info.serial, transport_id := none } :: iterDeviceLoop rest

/-- `AdbClient.iter_device()`: a fresh (non-extended) `list()` call,
filtered to state `"device"`. An error from `list()` propagates. -/
def iter_device (resp : WireResp) : Except PyError (List AdbDevice) :=
  match (AdbClient.list false resp).1 with
  | .error e => .error e
  | .ok infos => .ok (iterDeviceLoop infos)

/-- `AdbClient.device_list()`: `list(self.iter_device())`. -/
def device_list (resp : WireResp) : Except PyError (List AdbDevice) :=
  iter_device resp

/-- Python truthiness of an optional string: `None` and `""` are falsy. -/
def pyTruthyStr : Option String → Bool
  | none => false
  | some s => s ≠ ""

/-- Python truthiness of an optional integer: `None` and `0` are falsy. -/
def pyTruthyInt : Option Int → Bool
  | none => false
  | some n => n ≠ 0

/-- `AdbClient.device(serial, transport_id)`: the resolver.
`env` is `os.environ.get("ANDROID_SERIAL")`; `resp` is the daemon's
behaviour on the `device_list()` call the fallback performs. The chain
mirrors the source: `if serial:`, `if transport_id:`, `if not serial:`
(after rebinding `serial` to the environment value), then the
zero/many/one analysis of `device_list()`. -/
def AdbClient.device (serial : Option String) (transport_id : Option Int)
    (env : Option String) (resp : WireResp) : Except PyError AdbDevice :=
  if pyTruthyStr serial then
    .ok { serial := serial, transport_id := none }
  else if pyTruthyInt transport_id then
    .ok { serial := none, transport_id := transport_id }
  else if !pyTruthyStr env then
    match device_list resp with
    | .error e => .error e
    | .ok ds =>
      if ds.length = 0 then
        .error (.adbError "Can't find any android device/emulator")
      else if ds.length > 1 then
        .error (.adbError
          "more than one device/emulator, please specify the serial number")
      else
        match ds.head? with
        | some d => .ok d
        | none => .error .indexError
  else
    .ok { serial := env, transport_id := none }

/-- What a shell call observably amounts to in this model: either the
whole decoded output of the command (non-stream mode) or a live stream
connection (stream mode), each remembering the device, the command and
the timeout that governed the call. -/
inductive ShellResult where
  | output (device : AdbDevice) (command : String) (timeout : Option Nat)
  | streamConn (device : AdbDevice) (command : String) (timeout : Option Nat)
deriving Repr, DecidableEq

/-- Modelled from the spec: `AdbDevice.shell(command, stream, timeout)`
(from `adbutils._device`, not under `src/`): "opens a device-selected
session, sends the command, and either reads the entire output to
completion and returns it decoded as text (non-stream), or returns a
live handle for incremental reads (stream); timeout bounds the whole
call" (§4.4). `stream` is the truthiness of the value bound to the
`stream` parameter. -/
def AdbDevice.shell (d : AdbDevice) (command : String) (stream : Bool)
    (timeout : Option Nat) : ShellResult :=
  if stream then .streamConn d command timeout
  else .output d command timeout

/-- Python truthiness of the optional timeout value: `None` and `0` are
falsy, any positive timeout is truthy. -/
def pyTruthyTimeout : Option Nat → Bool
  | none => false
  | some n => n ≠ 0

/-- The deprecated `AdbClient.shell(serial, command, stream, timeout)` shim:
`return self.device(serial).shell(command, stream=stream, timeout=timeout)`. -/
def AdbClient.shell (serial : String) (command : String) (stream : Bool)
    (timeout : Option Nat) (env : Option String) (resp : WireResp) :
    Except PyError ShellResult :=
  match AdbClient.device (some serial) none env resp with
  | .error e => .error e
  | .ok d => .ok (d.shell command stream timeout)

/-- Spec-side description of the core resolve-then-operate path for C7,
written from the spec's words: "resolving a handle first and calling
shell on it" — resolve a handle for the serial, then call shell on the
handle with the same command, stream flag and timeout; a resolution
failure is surfaced unchanged. -/
def resolveThenShell (serial : String) (command : String) (stream : Bool)
    (timeout : Option Nat) (env : Option String) (resp : WireResp) :
    Except PyError ShellResult :=
  (AdbClient.device (some serial) none env resp).map
    (fun d => d.shell command stream timeout)

/-- Modelled from the spec: `AsyncAdbController.shell(device, cmd, timeout)`
runs `asyncio.to_thread(device.shell, cmd, timeout)`; per §4.6 the bridge
"dispatches the exact same blocking call onto a separate execution
context and surfaces its result or failure back to the caller", so
awaiting it yields the result of that very call. The two positional
arguments bind to `device.shell`'s first two parameters: `command := cmd`
and `stream := timeout` (tested by truthiness inside `shell`), while the
`timeout` parameter keeps its default `None`. -/
def AsyncAdbController.shell (d : AdbDevice) (cmd : String)
    (timeout : Option Nat) : ShellResult :=
  d.shell cmd (pyTruthyTimeout timeout) none

/-- Modelled from the spec: `AsyncAdbController.device_list()` dispatches
the blocking `device_list` unchanged (§4.6 pure dispatch). -/
def AsyncAdbController.device_list (resp : WireResp) :
    Except PyError (List AdbDevice) :=
  Adb.device_list resp

/-! ## Supporting lemmas -/

/-- The `iter_device` loop is the order-preserving filter to state
`"device"`, mapped to serial-bound handles. -/
theorem iterDeviceLoop_eq (infos : List AdbDeviceInfo) :
    iterDeviceLoop infos =
      (infos.filter (fun i => i.state = "device")).map
        (fun i => { serial := some i.serial, transport_id := none }) := by
  induction infos with
  | nil => rfl
  | cons info rest ih =>
    by_cases h : info.state = "device" <;>
      simp [iterDeviceLoop, List.filter, h, ih]

/-- Non-extended parsing never raises and produces exactly one record per
line with at least two whitespace tokens, in input order, serial from the
first token and state from the second. -/
theorem parseOutput_false_eq (lines : List String) :
    parseOutput false lines =
      .ok ((lines.filter (fun l => 2 ≤ (pySplit l).length)).map
        (fun l => { serial := (pySplit l).headD "",
                    state := ((pySplit l).drop 1).headD "",
                    tags := [] })) := by
  induction lines with
  | nil => rfl
  | cons line rest ih =>
    simp only [parseOutput, parseLine]
    match h : pySplit line with
    | [] => simp [List.filter, h, ih]
    | [a] => simp [List.filter, h, ih]
    | a :: b :: t => simp [List.filter, h, ih]

/-- A run of `buildTagDict` where every token splits into a key, a value
and possibly further fields folds exactly the (key, value) pairs into the
dictionary, in token order, and never raises. -/
theorem buildTagDict_eq_foldl {toks : List String}
    {kvs : List (String × String)}
    (h : List.Forall₂
      (fun t kv => ∃ rest, pySplitOn ':' t = kv.1 :: kv.2 :: rest) toks kvs) :
    ∀ d, buildTagDict toks d =
      .ok (kvs.foldl (fun d kv => dictInsert d kv.1 kv.2) d) := by
  induction h with
  | nil => intro d; rfl
  | @cons t kv toks' kvs' ht _ ih =>
    intro d
    obtain ⟨rest, hr⟩ := ht
    simp only [buildTagDict, hr, List.foldl]
    exact ih (dictInsert d kv.1 kv.2)

/-- `buildTagDict` can only raise `IndexError`. -/
theorem buildTagDict_error_is_index :
    ∀ (toks : List String) (d : List (String × String)) (e : PyError),
      buildTagDict toks d = .error e → e = .indexError := by
  intro toks
  induction toks with
  | nil => intro d e h; simp [buildTagDict] at h
  | cons t rest ih =>
    intro d e h
    simp only [buildTagDict] at h
    cases hs : pySplitOn ':' t with
    | nil => rw [hs] at h; injection h with h2; exact h2.symm
    | cons k ktl =>
      cases ktl with
      | nil => rw [hs] at h; injection h with h2; exact h2.symm
      | cons v r => rw [hs] at h; exact ih (dictInsert d k v) e h

/-- A token whose colon-split has a single field (no `":"` separator)
makes `buildTagDict` raise `IndexError`. -/
theorem buildTagDict_error_of_bad {toks : List String} {t : String}
    (hmem : t ∈ toks) (hbad : (pySplitOn ':' t).length = 1) :
    ∀ d, buildTagDict toks d = .error .indexError := by
  induction toks with
  | nil => cases hmem
  | cons t0 rest ih =>
    intro d
    rcases List.mem_cons.mp hmem with h0 | h0
    · subst h0
      match hs : pySplitOn ':' t with
      | [] => simp only [buildTagDict, hs]
      | [x] => simp only [buildTagDict, hs]
      | k :: v :: r => rw [hs] at hbad; simp at hbad
    · simp only [buildTagDict]
      match hs : pySplitOn ':' t0 with
      | [] => rfl
      | [x] => rfl
      | k :: v :: r => exact ih h0 (dictInsert d k v)

/-- An extended parse of one line can only raise `IndexError`. -/
theorem parseLine_true_error_is_index (line : String) (e : PyError)
    (h : parseLine true line = .error e) : e = .indexError := by
  simp only [parseLine] at h
  cases hs : pySplit line with
  | nil => rw [hs] at h; cases h
  | cons a atl =>
    cases atl with
    | nil => rw [hs] at h; cases h
    | cons b toks =>
      rw [hs] at h
      simp only [if_pos rfl] at h
      cases hb : buildTagDict toks [] with
      | ok tags => rw [hb] at h; cases h
      | error e0 =>
        rw [hb] at h
        injection h with h2
        exact h2 ▸ buildTagDict_error_is_index toks [] e0 hb

/-- A line with at least two whitespace tokens one of whose tag tokens has
no `":"` separator makes the extended parse of that line raise
`IndexError`. -/
theorem parseLine_true_error_of_bad {line : String} {a b t : String}
    {toks : List String} (hsplit : pySplit line = a :: b :: toks)
    (hmem : t ∈ toks) (hbad : (pySplitOn ':' t).length = 1) :
    parseLine true line = .error .indexError := by
  simp [parseLine, hsplit, buildTagDict_error_of_bad hmem hbad]

/-- If some line of the listing raises during the extended parse of its
tag tokens, the whole parse raises `IndexError`. -/
theorem parseOutput_true_error_of_bad {lines : List String} {line : String}
    (hline : line ∈ lines) {a b t : String} {toks : List String}
    (hsplit : pySplit line = a :: b :: toks)
    (hmem : t ∈ toks) (hbad : (pySplitOn ':' t).length = 1) :
    parseOutput true lines = .error .indexError := by
  induction lines with
  | nil => cases hline
  | cons l0 rest ih =>
    rcases List.mem_cons.mp hline with h0 | h0
    · subst h0
      simp only [parseOutput, parseLine_true_error_of_bad hsplit hmem hbad]
    · simp only [parseOutput]
      cases hp : parseLine true l0 with
      | error e0 =>
        have he : e0 = .indexError := parseLine_true_error_is_index l0 e0 hp
        subst he
        simp [hp]
      | ok o =>
        cases o with
        | none => simpa [hp] using ih h0
        | some info => simp [hp, ih h0]

/-- Folding fresh keys into the dictionary model is plain appending: with
pairwise-distinct keys (also distinct from those already present) the
result is the association list itself, in token order. -/
theorem foldl_dictInsert_of_nodup :
    ∀ (kvs d : List (String × String)),
      ((d ++ kvs).map Prod.fst).Nodup →
      kvs.foldl (fun d kv => dictInsert d kv.1 kv.2) d = d ++ kvs := by
  intro kvs
  induction kvs with
  | nil => intro d _; simp
  | cons kv rest ih =>
    intro d hnd
    have hfresh : kv.1 ∉ d.map Prod.fst := by
      intro hmem
      rw [List.map_append] at hnd
      rcases List.nodup_append.mp hnd with ⟨_, _, hdisj⟩
      exact hdisj hmem (by simp)
    have hins : dictInsert d kv.1 kv.2 = d ++ [kv] := by
      have hany : d.any (fun p => p.1 = kv.1) = false := by
        simp only [List.any_eq_false, decide_eq_true_eq]
        intro p hp hpk
        exact hfresh (hpk ▸ List.mem_map_of_mem Prod.fst hp)
      simp [dictInsert, hany]
    have hnd' : (((d ++ [kv]) ++ rest).map Prod.fst).Nodup := by
      simpa [List.append_assoc] using hnd
    calc (kv :: rest).foldl (fun d kv => dictInsert d kv.1 kv.2) d
        = rest.foldl (fun d kv => dictInsert d kv.1 kv.2) (d ++ [kv]) := by
          simp [List.foldl, hins]
      _ = (d ++ [kv]) ++ rest := ih (d ++ [kv]) hnd'
      _ = d ++ kv :: rest := by simp [List.append_assoc]

/-- In an association list with pairwise-distinct keys, lookup of any
entry's key returns that entry's value. -/
theorem dictGet_of_nodup :
    ∀ (kvs : List (String × String)),
      (kvs.map Prod.fst).Nodup →
      ∀ kv ∈ kvs, dictGet kvs kv.1 = some kv.2 := by
  intro kvs
  induction kvs with
  | nil => intro _ kv h; cases h
  | cons p rest ih =>
    intro hnd kv hkv
    have hnd' : (rest.map Prod.fst).Nodup := (List.nodup_cons.mp hnd).2
    rcases List.mem_cons.mp hkv with h0 | h0
    · subst h0
      simp [dictGet, List.find?]
    · have hne : p.1 ≠ kv.1 := by
        intro he
        exact (List.nodup_cons.mp hnd).1
          (he ▸ List.mem_map_of_mem Prod.fst h0)
      have := ih hnd' kv h0
      simpa [dictGet, List.find?, hne] using this

/-! ## Claim theorems -/

/-- C3: for every discovery response block, `list()` produces exactly one
`DeviceInfo` per line that has at least 2 whitespace-separated tokens, in
input-line order, with serial taken from the first token and state from
the second; every line with fewer than 2 tokens is dropped and
contributes nothing. -/
theorem claim_C3_list_one_info_per_line (block : String) :
    (AdbClient.list false (.okay block)).1 =
      .ok (((splitlines block).filter (fun l => 2 ≤ (pySplit l).length)).map
        (fun l => { serial := (pySplit l).headD "",
                    state := ((pySplit l).drop 1).headD "",
                    tags := [] })) :=
  parseOutput_false_eq (splitlines block)

/-- C5: `iter_device()` yields exactly the subsequence of `list()` entries
whose state equals `"device"`, preserving listing order, one handle bound
to that entry's serial per kept entry; entries in any other state are
silently excluded without error, and `device_list()` equals the list of
everything `iter_device()` yields. -/
theorem claim_C5_iter_device_filters (resp : WireResp)
    (infos : List AdbDeviceInfo)
    (h : (AdbClient.list false resp).1 = .ok infos) :
    iter_device resp =
      .ok ((infos.filter (fun i => i.state = "device")).map
        (fun i => { serial := some i.serial, transport_id := none }))
    ∧ device_list resp = iter_device resp := by
  constructor
  · simp only [iter_device, h, iterDeviceLoop_eq]
  · rfl

/-- Witness for C5 at a concrete listing with a mixed-state device set. -/
theorem claim_C5_witness :
    iter_device (.okay "A device\nB offline\nC device") =
      .ok [{ serial := some "A", transport_id := none },
           { serial := some "C", transport_id := none }]
    ∧ device_list (.okay "A device\nB offline\nC device") =
        iter_device (.okay "A device\nB offline\nC device") := by
  have h := claim_C5_iter_device_filters (.okay "A device\nB offline\nC device")
    [{ serial := "A", state := "device", tags := [] },
     { serial := "B", state := "offline", tags := [] },
     { serial := "C", state := "device", tags := [] }] rfl
  exact ⟨h.1.trans rfl, h.2⟩

/-- C8: on every exit path of `list()` — normal completion, a daemon FAIL
status, a framing error, or an exception raised while parsing the listing
— the connection acquired for the discovery command is released before
`list()` returns or propagates the error, and the body's result (value or
error) is surfaced unchanged. -/
theorem claim_C8_list_releases_connection (extended : Bool)
    (resp : WireResp) :
    ((AdbClient.list extended resp).2).closed = true
    ∧ (AdbClient.list extended resp).1 =
        (listSession extended resp { closed := false }).1 :=
  ⟨rfl, rfl⟩

/-- C9: the resolver tests its selectors by truthiness, not presence — an
empty-string serial, a zero transport id, and an empty-string environment
default each behave exactly as if that selector were absent. -/
theorem claim_C9_truthiness (tid : Option Int) (env : Option String)
    (resp : WireResp) :
    AdbClient.device (some "") tid env resp
      = AdbClient.device none tid env resp
    ∧ (∀ serial, AdbClient.device serial (some 0) env resp
        = AdbClient.device serial none env resp)
    ∧ AdbClient.device none none (some "") resp
        = AdbClient.device none none none resp := by
  refine ⟨?_, ?_, ?_⟩
  · simp [AdbClient.device, pyTruthyStr]
  · intro serial
    cases h : pyTruthyStr serial <;>
      simp [AdbClient.device, pyTruthyInt, h]
  · simp [AdbClient.device, pyTruthyStr, pyTruthyInt]

/-- C1: the selector priority is a strict chain — a truthy explicit serial
wins (transport id, environment and auto-detection ignored); else a
truthy transport id wins; else a truthy environment default is used
without validation; else resolution behaves exactly like pure
auto-detection over the connected-device list. -/
theorem claim_C1_resolution_priority (serial : Option String)
    (tid : Option Int) (env : Option String) (resp : WireResp) :
    (∀ s, serial = some s → s ≠ "" →
      AdbClient.device serial tid env resp
        = .ok { serial := some s, transport_id := none })
    ∧ (pyTruthyStr serial = false → ∀ t, tid = some t → t ≠ 0 →
      AdbClient.device serial tid env resp
        = .ok { serial := none, transport_id := some t })
    ∧ (pyTruthyStr serial = false → pyTruthyInt tid = false →
       ∀ e, env = some e → e ≠ "" →
      AdbClient.device serial tid env resp
        = .ok { serial := some e, transport_id := none })
    ∧ (pyTruthyStr serial = false → pyTruthyInt tid = false →
       pyTruthyStr env = false →
      AdbClient.device serial tid env resp
        = AdbClient.device none none none resp) := by
  refine ⟨?_, ?_, ?_, ?_⟩
  · rintro s rfl hs
    simp [AdbClient.device, pyTruthyStr, hs]
  · rintro h1 t rfl ht
    simp [AdbClient.device, pyTruthyInt, h1, ht]
  · rintro h1 h2 e rfl he
    have h3 : pyTruthyStr (some e) = true := by simp [pyTruthyStr, he]
    simp [AdbClient.device, h1, h2, h3]
  · intro h1 h2 h3
    have e1 : pyTruthyStr none = false := rfl
    have e2 : pyTruthyInt none = false := rfl
    simp [AdbClient.device, h1, h2, h3, e1, e2]

/-- Witness for C1, mirroring the spec's example: explicit serial `"S1"`
beats the environment default `"S2"` and two connected devices; likewise
each later stage of the chain at the same connected-device listing. -/
theorem claim_C1_witness :
    AdbClient.device (some "S1") none (some "S2") (.okay "A device\nB device")
      = .ok { serial := some "S1", transport_id := none }
    ∧ AdbClient.device none (some 7) (some "S2") (.okay "A device\nB device")
      = .ok { serial := none, transport_id := some 7 }
    ∧ AdbClient.device none none (some "S2") (.okay "A device\nB device")
      = .ok { serial := some "S2", transport_id := none }
    ∧ AdbClient.device none none none (.okay "A device\nB device")
      = AdbClient.device none none none (.okay "A device\nB device") := by
  refine ⟨?_, ?_, ?_, ?_⟩
  · exact (claim_C1_resolution_priority (some "S1") none (some "S2")
      (.okay "A device\nB device")).1 "S1" rfl (by decide)
  · exact (claim_C1_resolution_priority none (some 7) (some "S2")
      (.okay "A device\nB device")).2.1 rfl 7 rfl (by decide)
  · exact (claim_C1_resolution_priority none none (some "S2")
      (.okay "A device\nB device")).2.2.1 rfl rfl "S2" rfl (by decide)
  · exact (claim_C1_resolution_priority none none none
      (.okay "A device\nB device")).2.2.2 rfl rfl rfl

/-- C2: resolution with no explicit serial, no transport id and no
environment default fails with the no-device error on an empty filtered
device list, fails with the ambiguity error on more than one entry, and
returns the unique device on exactly one entry; the failure is returned
(raised), never retried. -/
theorem claim_C2_autodetect (resp : WireResp) (ds : List AdbDevice)
    (h : device_list resp = .ok ds) :
    (ds = [] → AdbClient.device none none none resp
       = .error (.adbError "Can't find any android device/emulator"))
    ∧ (ds.length > 1 → AdbClient.device none none none resp
       = .error (.adbError
           "more than one device/emulator, please specify the serial number"))
    ∧ (∀ d, ds = [d] → AdbClient.device none none none resp = .ok d) := by
  refine ⟨?_, ?_, ?_⟩
  · rintro rfl
    simp [AdbClient.device, pyTruthyStr, pyTruthyInt, h]
  · intro hlen
    have h0 : ds.length ≠ 0 := by omega
    simp [AdbClient.device, pyTruthyStr, pyTruthyInt, h, h0, hlen]
  · rintro d rfl
    simp [AdbClient.device, pyTruthyStr, pyTruthyInt, h]

/-- Witness for C2 at concrete listings with zero, two and one connected
devices. -/
theorem claim_C2_witness :
    AdbClient.device none none none (.okay "")
      = .error (.adbError "Can't find any android device/emulator")
    ∧ AdbClient.device none none none (.okay "A device\nB device")
      = .error (.adbError
          "more than one device/emulator, please specify the serial number")
    ∧ AdbClient.device none none none (.okay "A device")
      = .ok { serial := some "A", transport_id := none } := by
  refine ⟨?_, ?_, ?_⟩
  · exact (claim_C2_autodetect (.okay "") [] rfl).1 rfl
  · exact (claim_C2_autodetect (.okay "A device\nB device")
      [{ serial := some "A", transport_id := none },
       { serial := some "B", transport_id := none }] rfl).2.1 (by decide)
  · exact (claim_C2_autodetect (.okay "A device")
      [{ serial := some "A", transport_id := none }] rfl).2.2
      { serial := some "A", transport_id := none } rfl

/-- C7: for every serial, command, stream flag and timeout, the deprecated
client-level shell shim returns exactly what resolving a handle for that
serial and calling shell on it with the same arguments returns, and fails
exactly when that resolution fails: the shim only resolves and forwards. -/
theorem claim_C7_shell_shim_forwards (serial command : String)
    (stream : Bool) (timeout : Option Nat) (env : Option String)
    (resp : WireResp) :
    AdbClient.shell serial command stream timeout env resp
      = resolveThenShell serial command stream timeout env resp := by
  unfold AdbClient.shell resolveThenShell
  cases AdbClient.device (some serial) none env resp <;> rfl

/-- C6 fails on the code: the bridged `shell(device, cmd, timeout)` passes
`timeout` positionally into the blocking `shell`'s second parameter
(`stream`), so with a truthy timeout the bridged call opens a stream with
no timeout instead of returning `device.shell(cmd, timeout=timeout)`. -/
theorem claim_C6_bridge_shell_misroutes :
    AsyncAdbController.shell
        { serial := some "S1", transport_id := none } "ls" (some 5)
      = ShellResult.streamConn
          { serial := some "S1", transport_id := none } "ls" none
    ∧ AdbDevice.shell
        { serial := some "S1", transport_id := none } "ls" false (some 5)
      = ShellResult.output
          { serial := some "S1", transport_id := none } "ls" (some 5)
    ∧ AsyncAdbController.shell
        { serial := some "S1", transport_id := none } "ls" (some 5)
      ≠ AdbDevice.shell
          { serial := some "S1", transport_id := none } "ls" false (some 5) :=
  ⟨rfl, rfl, by decide⟩

/-- C4: on an extended listing line whose tag tokens each split on `":"`
into exactly a key and a value, the parse succeeds and folds exactly
those pairs into the tags dictionary; with pairwise-distinct keys the
dictionary is that pair list itself and maps each token's key to its
value; without extended discovery the line's tags are empty. -/
theorem claim_C4_extended_tags (line a b : String) (toks : List String)
    (kvs : List (String × String))
    (hsplit : pySplit line = a :: b :: toks)
    (hkv : List.Forall₂
      (fun t kv => pySplitOn ':' t = [kv.1, kv.2]) toks kvs) :
    parseLine true line
      = .ok (some { serial := a, state := b,
                    tags := kvs.foldl (fun d kv => dictInsert d kv.1 kv.2) [] })
    ∧ ((kvs.map Prod.fst).Nodup →
        kvs.foldl (fun d kv => dictInsert d kv.1 kv.2) [] = kvs
        ∧ ∀ kv ∈ kvs, dictGet kvs kv.1 = some kv.2)
    ∧ parseLine false line
      = .ok (some { serial := a, state := b, tags := [] }) := by
  have hkv' : List.Forall₂
      (fun t kv => ∃ rest, pySplitOn ':' t = kv.1 :: kv.2 :: rest)
      toks kvs :=
    hkv.imp (fun _ _ h => ⟨[], h⟩)
  refine ⟨?_, ?_, ?_⟩
  · simp [parseLine, hsplit, buildTagDict_eq_foldl hkv']
  · intro hnd
    constructor
    · simpa using foldl_dictInsert_of_nodup kvs [] (by simpa using hnd)
    · exact dictGet_of_nodup kvs hnd
  · simp [parseLine, hsplit]

/-- Witness for C4 at a concrete extended listing line with two tag
tokens. -/
theorem claim_C4_witness :
    parseLine true "A device k1:v1 k2:v2"
      = .ok (some { serial := "A", state := "device",
                    tags := [("k1", "v1"), ("k2", "v2")] })
    ∧ dictGet [("k1", "v1"), ("k2", "v2")] "k1" = some "v1"
    ∧ parseLine false "A device k1:v1 k2:v2"
      = .ok (some { serial := "A", state := "device", tags := [] }) := by
  have h := claim_C4_extended_tags "A device k1:v1 k2:v2" "A" "device"
    ["k1:v1", "k2:v2"] [("k1", "v1"), ("k2", "v2")] rfl
    (List.Forall₂.cons rfl (List.Forall₂.cons rfl List.Forall₂.nil))
  exact ⟨h.1.trans rfl,
    (h.2.1 (by decide)).2 ("k1", "v1") (by decide), h.2.2⟩

/-- C10: in extended mode, a listing containing a line of at least two
tokens one of whose later tokens has no `":"` separator (its colon-split
is a single field) makes the whole `list()` parse raise `IndexError`
rather than skipping the token; and a token with more than one `":"`
contributes only its first two colon-fields — the key and the value
between the first and second `":"` — silently dropping the rest. -/
theorem claim_C10_extended_malformed (block : String) :
    (∀ line ∈ splitlines block, ∀ a b t : String, ∀ toks : List String,
      pySplit line = a :: b :: toks →
      t ∈ toks → (pySplitOn ':' t).length = 1 →
      (AdbClient.list true (.okay block)).1 = .error .indexError)
    ∧ (∀ line a b : String, ∀ toks : List String,
        ∀ kvs : List (String × String),
      pySplit line = a :: b :: toks →
      List.Forall₂
        (fun t kv => ∃ rest, pySplitOn ':' t = kv.1 :: kv.2 :: rest)
        toks kvs →
      parseLine true line
        = .ok (some { serial := a, state := b,
                      tags := kvs.foldl (fun d kv => dictInsert d kv.1 kv.2) [] })) := by
  constructor
  · intro line hline a b t toks hsplit hmem hbad
    exact parseOutput_true_error_of_bad hline hsplit hmem hbad
  · intro line a b toks kvs hsplit hkv
    simp [parseLine, hsplit, buildTagDict_eq_foldl hkv]

/-- Witness for C10: a separator-less tag token fails the whole extended
parse, and a doubly-separated token keeps only its first two fields. -/
theorem claim_C10_witness :
    (AdbClient.list true (.okay "A device nosep")).1
      = .error .indexError
    ∧ parseLine true "A device k:v:extra"
      = .ok (some { serial := "A", state := "device",
                    tags := [("k", "v")] }) := by
  have h := claim_C10_extended_malformed "A device nosep"
  have h2 := (claim_C10_extended_malformed "A device k:v:extra").2
    "A device k:v:extra" "A" "device" ["k:v:extra"] [("k", "v")] rfl
    (List.Forall₂.cons ⟨["extra"], rfl⟩ List.Forall₂.nil)
  exact ⟨h.1 "A device nosep" (by decide) "A" "device" "nosep" ["nosep"]
      rfl (by decide) rfl,
    h2.trans rfl⟩

end Adb
